import Mathlib

/-!
Verification development for the trading-risk application (`src/app.py`).

The Python source is shallowly embedded: Python floats are modelled as exact
rationals (`ℚ`), Python `None` as `Option.none`, spreadsheet cell text as
`String` / `List Char`, and each fallible operation as an `Except`-valued
function.  Binary floating-point representation artifacts (rounding of
non-representable decimals) are outside the scope of this embedding; the
special IEEE values produced by Python's `float()` (`inf`, `nan`) are modelled
explicitly where the control flow of the source depends on them
(`parse_margin_pct`).
-/

/-! ## Character/string primitives (Python `str.strip`, `str.lower`, `str.replace`) -/

/-- Python `str.strip()` on a list of characters: drop whitespace from both ends. -/
def trimList (cs : List Char) : List Char :=
  ((cs.dropWhile Char.isWhitespace).reverse.dropWhile Char.isWhitespace).reverse

/-- Python `s.replace(",", ".")`: substitute every comma by a dot (`app.py` line 30). -/
def commaToDot (cs : List Char) : List Char :=
  cs.map (fun c => if c = ',' then '.' else c)

/-- Python `s.replace("%", "")`: delete every percent sign (`app.py` line 43). -/
def removePct (cs : List Char) : List Char :=
  cs.filter (fun c => c ≠ '%')

/-- Python `str.strip()` at `String` level. -/
def pyStrip (s : String) : String := ⟨trimList s.data⟩

/-- Python `str.lower()` at `String` level (ASCII case folding via `Char.toLower`). -/
def pyLower (s : String) : String := ⟨s.data.map Char.toLower⟩

/-! ## Python `float()` literal parsing, restricted to the decimal grammar.

`float(s)` accepts `[sign] (digits [. digits] | . digits) [(e|E) [sign] digits]`
plus the special words `inf`, `infinity`, `nan` (case-insensitive).  Underscore
group separators and non-ASCII digits are not modelled. -/

/-- Value of a decimal digit character, if it is one. -/
def digit? (c : Char) : Option Nat :=
  if '0' ≤ c ∧ c ≤ '9' then some (c.toNat - 48) else none

/-- Accumulate a digit string left to right; fails on any non-digit. -/
def digitsValAux : Nat → List Char → Option Nat
  | acc, [] => some acc
  | acc, c :: cs =>
    match digit? c with
    | some d => digitsValAux (10 * acc + d) cs
    | none => none

/-- Value of a non-empty all-digit string. -/
def digitsVal? : List Char → Option Nat
  | [] => none
  | cs => digitsValAux 0 cs

/-- Split a character list on a separator character. -/
def splitOnChar (sep : Char) : List Char → List (List Char)
  | [] => [[]]
  | c :: cs =>
    let r := splitOnChar sep cs
    if c = sep then [] :: r
    else
      match r with
      | [] => [[c]]
      | h :: t => (c :: h) :: t

/-- Mantissa of a float literal: `digits`, `digits.digits`, `digits.` or `.digits`. -/
def mantissa? (cs : List Char) : Option ℚ :=
  match splitOnChar '.' cs with
  | [l] => (digitsVal? l).map (fun n => (n : ℚ))
  | [l, r] =>
    if l.isEmpty && r.isEmpty then none
    else
      match (if l.isEmpty then some 0 else digitsVal? l),
            (if r.isEmpty then some 0 else digitsVal? r) with
      | some a, some b => some ((a : ℚ) + (b : ℚ) / (10 : ℚ) ^ r.length)
      | _, _ => none
  | _ => none

/-- Exponent of a float literal: optional sign then digits. -/
def expVal? : List Char → Option ℤ
  | '+' :: rest => (digitsVal? rest).map (fun n => (n : ℤ))
  | '-' :: rest => (digitsVal? rest).map (fun n => -(n : ℤ))
  | rest => (digitsVal? rest).map (fun n => (n : ℤ))

/-- Python `float(s)` on the finite-decimal fragment, as an exact rational.
`float` itself tolerates surrounding whitespace, hence the leading trim. -/
def pyFloatRat? (cs0 : List Char) : Option ℚ :=
  let cs1 := trimList cs0
  let sgncs : ℚ × List Char :=
    match cs1 with
    | '+' :: rest => (1, rest)
    | '-' :: rest => (-1, rest)
    | rest => (1, rest)
  let csE := sgncs.2.map (fun c => if c = 'E' then 'e' else c)
  match splitOnChar 'e' csE with
  | [m] => (mantissa? m).map (fun v => sgncs.1 * v)
  | [m, e] =>
    match mantissa? m, expVal? e with
    | some mv, some ev => some (sgncs.1 * mv * (10 : ℚ) ^ ev)
    | _, _ => none
  | _ => none

/-- Result of Python `float()` including the special IEEE values. -/
inductive PyVal where
  | fin (q : ℚ)
  | inf (neg : Bool)
  | nan
deriving DecidableEq, Repr

/-- Python `float(s)` on the special words `inf` / `infinity` / `nan`
(case-insensitive, optional sign). -/
def pyFloatSpecial? (cs0 : List Char) : Option PyVal :=
  let cs1 := trimList cs0
  let sgncs : Bool × List Char :=
    match cs1 with
    | '+' :: rest => (false, rest)
    | '-' :: rest => (true, rest)
    | rest => (false, rest)
  let l := sgncs.2.map Char.toLower
  if l = "inf".data ∨ l = "infinity".data then some (.inf sgncs.1)
  else if l = "nan".data then some .nan
  else none

/-- Python `float(s)`: finite decimal value or special value, `none` = `ValueError`. -/
def pyFloat? (cs : List Char) : Option PyVal :=
  match pyFloatRat? cs with
  | some q => some (.fin q)
  | none => pyFloatSpecial? cs

/-! ## `parse_decimal` (`app.py` lines 23-34) -/

/-- Core of `parse_decimal` on the characters of the input text: strip, map the
empty string to `None`, substitute comma by dot, then `float(...)`, with any
parse failure caught and turned into `None`.  The rational fragment of
`float` is used here: special-value texts (`inf`/`nan`) are not produced by the
numeric fields this parser serves and are outside the `ℚ` embedding. -/
def parse_decimal_chars (cs : List Char) : Option ℚ :=
  let s := trimList cs
  if s = [] then none
  else pyFloatRat? (commaToDot s)

/-- Python `parse_decimal(s)` (`app.py` lines 23-34): `None` input gives `None`. -/
def parse_decimal (v : Option String) : Option ℚ :=
  match v with
  | none => none
  | some s => parse_decimal_chars s.data

/-! ## `parse_margin_pct` (`app.py` lines 36-53) -/

/-- Cleaned text `str(v).strip().replace("%","").replace(",",".").strip()`
that `parse_margin_pct` hands to `float(...)`. -/
def marginClean (s : String) : List Char :=
  trimList (commaToDot (removePct (trimList s.data)))

/-- Python `parse_margin_pct(v)` (`app.py` lines 36-53).  The source guard
`if val > 1 or val <= 1: return val / 100.0` is a tautology for every finite
float and for both infinities (`inf > 1`, `-inf <= 1`), so those inputs return
`val / 100` (and `inf / 100 = inf`).  For `val = nan` both comparisons are
False, the `if` body is skipped, no exception is raised, and the function falls
off its end: Python returns `None`.  A `float(...)` exception is caught and
returns `0.0`. -/
def parse_margin_pct (v : Option String) : Option PyVal :=
  match v with
  | none => some (.fin 0)
  | some s =>
    if trimList s.data = [] then some (.fin 0)
    else
      match pyFloat? (marginClean s) with
      | some (.fin val) => some (.fin (val / 100))
      | some (.inf b) => some (.inf b)
      | some .nan => none
      | none => some (.fin 0)

/-! ## `safe_div` (`app.py` lines 55-63) -/

/-- Python `safe_div(a, b)`: `None` if either argument is `None` or `b == 0`. -/
def safe_div (a b : Option ℚ) : Option ℚ :=
  match a, b with
  | some x, some y => if y = 0 then none else some (x / y)
  | _, _ => none

/-- Python truthiness of an optional float: `None` and `0.0` are falsy. -/
def truthy : Option ℚ → Bool
  | none => false
  | some q => q != 0

/-- Python `round(x, 2)` idealized on rationals: round half to even at two
decimal places (binary-float representation effects out of scope). -/
def roundHalfEven (x : ℚ) : ℤ :=
  let f := Int.floor x
  let r := x - (f : ℚ)
  if r < 1 / 2 then f
  else if 1 / 2 < r then f + 1
  else if f % 2 = 0 then f else f + 1

/-- Two-decimal rounding used for the sheet cells `round(v, 2)`. -/
def round2 (x : ℚ) : ℚ := (roundHalfEven (100 * x) : ℚ) / 100

/-! ## Risk calculation engine (`app.py` lines 161-209) -/

/-- Trade side: `"Compra"` (long) or `"Venta"` (short). -/
inductive Side where
  | compra
  | venta
deriving DecidableEq, Repr

/-- Sheet value of a side, as written into the `Tipo` column. -/
def sideStr : Side → String
  | .compra => "Compra"
  | .venta => "Venta"

/-- Output of the live calculation block (`app.py` lines 164-209). -/
structure CalcOut where
  margen : Option ℚ
  riesgo : Option ℚ
  beneficio : Option ℚ
  rb : Option ℚ
  incoherente : Bool
deriving DecidableEq, Repr

/-- Margin metric (`app.py` lines 170-171): computed only when `lote` and
`precio` parsed. -/
def liveMargen (lot_size margin_pct : ℚ) (lote precio : Option ℚ) : Option ℚ :=
  match lote, precio with
  | some l, some p => some (margin_pct * l * p * lot_size)
  | _, _ => none

/-- Risk metric (`app.py` lines 181-185): for `Compra`,
`lote * (sl - precio) * lot_size`; for `Venta`, `lote * (precio - sl) * lot_size`. -/
def liveRiesgo (side : Side) (lot_size : ℚ) (lote precio sl : Option ℚ) : Option ℚ :=
  match lote, precio, sl with
  | some l, some p, some s =>
    some (match side with
          | .compra => l * (s - p) * lot_size
          | .venta => l * (p - s) * lot_size)
  | _, _, _ => none

/-- Reward metric (`app.py` lines 187-191): for `Compra`,
`lote * (tp - precio) * lot_size`; for `Venta`, `lote * (precio - tp) * lot_size`. -/
def liveBeneficio (side : Side) (lot_size : ℚ) (lote precio tp : Option ℚ) : Option ℚ :=
  match lote, precio, tp with
  | some l, some p, some t =>
    some (match side with
          | .compra => l * (t - p) * lot_size
          | .venta => l * (p - t) * lot_size)
  | _, _, _ => none

/-- Incoherence flag (`app.py` lines 196-200): set when risk and reward both
exist and `not (riesgo < 0 and beneficio > 0)`; the same test for both sides. -/
def liveIncoherente (riesgo beneficio : Option ℚ) : Bool :=
  match riesgo, beneficio with
  | some r, some b => if r < 0 ∧ 0 < b then false else true
  | _, _ => false

/-- Ratio (`app.py` lines 202-209): `abs(beneficio) / abs(riesgo)` whenever
both exist and `abs(riesgo) != 0`. -/
def liveRb (riesgo beneficio : Option ℚ) : Option ℚ :=
  match riesgo, beneficio with
  | some r, some b => if abs r ≠ 0 then some (abs b / abs r) else none
  | _, _ => none

/-- Live calculation (`app.py` lines 161-209): partial inputs allowed, each
metric computed only when its inputs parsed. -/
def computeLive (side : Side) (lot_size margin_pct : ℚ)
    (lote precio sl tp : Option ℚ) : CalcOut :=
  { margen := liveMargen lot_size margin_pct lote precio,
    riesgo := liveRiesgo side lot_size lote precio sl,
    beneficio := liveBeneficio side lot_size lote precio tp,
    rb := liveRb (liveRiesgo side lot_size lote precio sl)
                 (liveBeneficio side lot_size lote precio tp),
    incoherente := liveIncoherente (liveRiesgo side lot_size lote precio sl)
                                   (liveBeneficio side lot_size lote precio tp) }

/-- Modelled from the spec: the sign convention of §4.3 for `risk`,
`risk = lot * (entryPrice - stopLevel) / lotSize` for Long and
`lot * (stopLevel - entryPrice) / lotSize` for Short, stated verbatim for
comparison against the source computation. -/
def specRisk (side : Side) (lot entryPrice stopLevel lotSize : ℚ) : ℚ :=
  match side with
  | .compra => lot * (entryPrice - stopLevel) / lotSize
  | .venta => lot * (stopLevel - entryPrice) / lotSize

/-- Modelled from the spec: the sign convention of §4.3 for `reward`,
`reward = lot * (targetLevel - entryPrice) / lotSize` for Long and
`lot * (entryPrice - targetLevel) / lotSize` for Short. -/
def specReward (side : Side) (lot entryPrice targetLevel lotSize : ℚ) : ℚ :=
  match side with
  | .compra => lot * (targetLevel - entryPrice) / lotSize
  | .venta => lot * (entryPrice - targetLevel) / lotSize

/-! ## Edit-panel dynamic calculation (`app.py` lines 582-603) -/

/-- Edit-panel risk preview (`app.py` lines 590-594): for side `compra`,
`(sl_val - precio) * lote * lot_size`, otherwise `(precio - sl_val) * lote * lot_size`. -/
def editRiesgo (isCompra : Bool) (precio lote lot_size : ℚ) (sl_val : Option ℚ) : Option ℚ :=
  sl_val.map (fun s =>
    if isCompra then (s - precio) * lote * lot_size else (precio - s) * lote * lot_size)

/-- Edit-panel reward preview (`app.py` lines 596-600). -/
def editBeneficio (isCompra : Bool) (precio lote lot_size : ℚ) (tp_val : Option ℚ) : Option ℚ :=
  tp_val.map (fun t =>
    if isCompra then (t - precio) * lote * lot_size else (precio - t) * lote * lot_size)

/-- Edit-panel ratio preview (`app.py` lines 602-603):
`abs(beneficio / abs(riesgo))` when both exist and `riesgo != 0`. -/
def editRb (riesgo beneficio : Option ℚ) : Option ℚ :=
  match riesgo, beneficio with
  | some r, some b => if r ≠ 0 then some (abs (b / abs r)) else none
  | _, _ => none

/-! ## Close-time realized metrics (`app.py` lines 519-525 and 734-739) -/

/-- Realized risk at close (`app.py` lines 521/524 and 735/738): guarded by the
Python truthiness of `lote_r` and `precio_ent` and `sl_r is not None`; for
`compra`, `lote_r * (sl_r - precio_ent) / lot_size_r`, else with the
difference reversed.  Note the division by `lot_size_r`, unlike the
registration-time computation which multiplies. -/
def riesgo_r (isCompra : Bool) (lote precio sl : Option ℚ) (lot_size : ℚ) : Option ℚ :=
  match lote, precio, sl with
  | some l, some p, some s =>
    if l ≠ 0 ∧ p ≠ 0 then
      some (if isCompra then l * (s - p) / lot_size else l * (p - s) / lot_size)
    else none
  | _, _, _ => none

/-- Realized reward at close (`app.py` lines 522/525 and 736/739). -/
def beneficio_r (isCompra : Bool) (lote precio tp : Option ℚ) (lot_size : ℚ) : Option ℚ :=
  match lote, precio, tp with
  | some l, some p, some t =>
    if l ≠ 0 ∧ p ≠ 0 then
      some (if isCompra then l * (t - p) / lot_size else l * (p - t) / lot_size)
    else none
  | _, _, _ => none

/-! ## Record lifecycle: tables, effects, cancel / automatic close / manual close -/

/-- An active-table row as read back from the sheet (`ws_ops.row_values`):
every cell is text.  The `estado` field models the lifecycle-state column that
the source reads as `row_dict.get("Estado") or row_dict.get("Orden") or
row_dict.get("Orden Tipo")`. -/
structure OpRow where
  uid : String
  fecha : String
  simbolo : String
  tipo : String
  lote : String
  precio : String
  stopLoss : String
  takeProfit : String
  margen : String
  riesgo : String
  beneficio : String
  rb : String
  estado : String
  comentario : String
deriving DecidableEq, Repr

/-- A cell written to the historical sheet: a text cell, a numeric cell, the
Python value `None` (serialized as an empty cell), or the rendered ratio string
`f"{v:.2f}:1"` tagged by its pre-format value. -/
inductive Cell where
  | str (v : String)
  | num (v : ℚ)
  | pynone
  | fmtRatio (v : ℚ)
deriving DecidableEq, Repr

/-- A store mutation performed by a terminal lifecycle transition:
`ws_hist.append_row(...)` or `ws_ops.delete_rows(n)` / `ws_ops.delete_row(n)`. -/
inductive Effect where
  | appendHist (row : List Cell)
  | deleteOps (rownum : Nat)
deriving DecidableEq, Repr

/-- The two external tables.  `ops` holds the active rows in sheet order (sheet
row `n` is list index `n - 2`; row 1 is the header), `hist` the historical rows. -/
structure Tables where
  ops : List OpRow
  hist : List (List Cell)
deriving DecidableEq, Repr

/-- Apply one store mutation. -/
def applyEffect (t : Tables) (e : Effect) : Tables :=
  match e with
  | .appendHist row => { t with hist := t.hist ++ [row] }
  | .deleteOps n => { t with ops := t.ops.eraseIdx (n - 2) }

/-- Apply a sequence of store mutations in order. -/
def applyEffects (t : Tables) (es : List Effect) : Tables :=
  es.foldl applyEffect t

/-- Apply the outcome of an operation: a rejected operation changes nothing. -/
def runOp (t : Tables) (res : Except String (List Effect)) : Tables :=
  match res with
  | .error _ => t
  | .ok es => applyEffects t es

/-- Historical row written by cancel (`app.py` lines 465-470): the record's own
text cells, an empty close price, the cause `"Eliminada"` and the justification. -/
def cancelHistRow (r : OpRow) (now justification : String) : List Cell :=
  [.str r.uid, .str r.fecha, .str now, .str r.simbolo, .str r.tipo,
   .str r.lote, .str r.precio, .str r.stopLoss, .str r.takeProfit,
   .str "", .str r.margen, .str r.riesgo, .str r.beneficio, .str r.rb,
   .str "Eliminada", .str justification]

/-- Cancel of a pending record ("Eliminar operación pendiente",
`app.py` lines 428-482): rejected unless the record's state is `pendiente`
(case-insensitive, stripped); rejected when the justification strips to empty;
otherwise appends the record to the historical table with cause `"Eliminada"`
and deletes the sheet row. -/
def cancelOp (r : OpRow) (rownum : Nat) (justification now : String) :
    Except String (List Effect) :=
  if pyLower (pyStrip r.estado) ≠ "pendiente" then
    .error "Solo se pueden eliminar operaciones en estado Pendiente."
  else if pyStrip justification = "" then
    .error "La justificación es obligatoria."
  else
    .ok [.appendHist (cancelHistRow r now justification), .deleteOps rownum]

/-- Numeric-or-`None` cell. -/
def cellOfOpt : Option ℚ → Cell
  | some q => .num q
  | none => .pynone

/-- Cell `round(v or 0.0, 2) if v is not None else ""` used for realized
risk/reward in close rows. -/
def cellRound2OrEmpty : Option ℚ → Cell
  | some v => .num (round2 v)
  | none => .str ""

/-- Cell `f"{v:.2f}:1" if v else ""`: the ratio is rendered only when truthy. -/
def cellRatioOrEmpty (v : Option ℚ) : Cell :=
  match v with
  | some q => if q ≠ 0 then .fmtRatio q else .str ""
  | none => .str ""

/-- Historical row written by the two close flows (`app.py` lines 532-539 and
745-749): original open data, close price, recomputed margin (`round(margen_r
or 0.0, 2)`), realized risk/reward, rendered ratio, cause and justification. -/
def closeHistRow (r : OpRow) (now : String)
    (lote_r precio_ent sl_r tp_r precio_cierre margen_r rr br rb_r : Option ℚ)
    (estadoCierre justif : String) : List Cell :=
  [.str r.uid, .str r.fecha, .str now, .str r.simbolo, .str r.tipo,
   cellOfOpt lote_r, cellOfOpt precio_ent, cellOfOpt sl_r, cellOfOpt tp_r,
   cellOfOpt precio_cierre, .num (round2 (margen_r.getD 0)),
   cellRound2OrEmpty rr, cellRound2OrEmpty br, cellRatioOrEmpty rb_r,
   .str estadoCierre, .str justif]

/-- Closure cause selected in the automatic-close form. -/
inductive Motivo where
  | tp
  | sl
deriving DecidableEq, Repr

/-- Sheet label of a closure cause. -/
def motivoStr : Motivo → String
  | .tp => "TP"
  | .sl => "SL"

/-- Close-time margin (`app.py` lines 517 and 732):
`margin_pct_r * lote_r * precio_ent * lot_size_r if (lote_r and precio_ent) else None`. -/
def margen_close (lote precio : Option ℚ) (lot_size margin_pct : ℚ) : Option ℚ :=
  match lote, precio with
  | some l, some p =>
    if l ≠ 0 ∧ p ≠ 0 then some (margin_pct * l * p * lot_size) else none
  | _, _ => none

/-- Close-time ratio (`app.py` lines 527 and 741):
`safe_div(beneficio_r, riesgo_r) if (riesgo_r and beneficio_r) else None`. -/
def rb_close (rr br : Option ℚ) : Option ℚ :=
  if truthy rr && truthy br then safe_div br rr else none

/-- Historical row built by the automatic close (`app.py` lines 500-539):
close price from the record's own TP or SL cell, realized metrics from the
record's original cells, side test `tipo_r.lower() == "compra"`. -/
def autoCloseRow (r : OpRow) (motivo : Motivo) (now : String)
    (lot_size_r margin_pct_r : ℚ) : List Cell :=
  let precio_cierre :=
    match motivo with
    | .tp => parse_decimal (some r.takeProfit)
    | .sl => parse_decimal (some r.stopLoss)
  let lote_r := parse_decimal (some r.lote)
  let precio_ent := parse_decimal (some r.precio)
  let sl_r := parse_decimal (some r.stopLoss)
  let tp_r := parse_decimal (some r.takeProfit)
  let isCompra := pyLower r.tipo = "compra"
  let rr := riesgo_r isCompra lote_r precio_ent sl_r lot_size_r
  let br := beneficio_r isCompra lote_r precio_ent tp_r lot_size_r
  closeHistRow r now lote_r precio_ent sl_r tp_r precio_cierre
    (margen_close lote_r precio_ent lot_size_r margin_pct_r) rr br (rb_close rr br)
    ("Cierre automático " ++ motivoStr motivo) ""

/-- Automatic close ("Cierre automático (TP/SL)", `app.py` lines 485-546):
rejected when the record is `pendiente`; otherwise the historical row
`autoCloseRow` is appended and the sheet row deleted. -/
def autoCloseOp (r : OpRow) (rownum : Nat) (motivo : Motivo) (now : String)
    (lot_size_r margin_pct_r : ℚ) : Except String (List Effect) :=
  if pyLower (pyStrip r.estado) = "pendiente" then
    .error "No se puede efectuar cierre automático sobre operación pendiente. Actívala primero."
  else
    .ok [.appendHist (autoCloseRow r motivo now lot_size_r margin_pct_r),
         .deleteOps rownum]

/-- Historical row built by the manual close (`app.py` lines 723-749):
user-typed close price, realized metrics from the record's original cells,
side test `tipo_r == "Compra"` (exact case). -/
def manualCloseRow (r : OpRow) (close_price : ℚ) (justifClose now : String)
    (lot_size_r margin_pct_r : ℚ) : List Cell :=
  let lote_r := parse_decimal (some r.lote)
  let precio_ent := parse_decimal (some r.precio)
  let sl_r := parse_decimal (some r.stopLoss)
  let tp_r := parse_decimal (some r.takeProfit)
  let isCompra := r.tipo = "Compra"
  let rr := riesgo_r isCompra lote_r precio_ent sl_r lot_size_r
  let br := beneficio_r isCompra lote_r precio_ent tp_r lot_size_r
  closeHistRow r now lote_r precio_ent sl_r tp_r (some close_price)
    (margen_close lote_r precio_ent lot_size_r margin_pct_r) rr br (rb_close rr br)
    "Cierre manual" justifClose

/-- Manual close ("Cierre manual de selección", `app.py` lines 707-755):
rejected when the record is `pendiente`; rejected when the typed close price
does not parse; otherwise the historical row `manualCloseRow` with cause
`"Cierre manual"` is appended and the sheet row deleted. -/
def manualCloseOp (r : OpRow) (rownum : Nat) (closePriceInput justifClose now : String)
    (lot_size_r margin_pct_r : ℚ) : Except String (List Effect) :=
  if pyLower (pyStrip r.estado) = "pendiente" then
    .error "No se puede cerrar manualmente una operación pendiente; actívala primero."
  else
    match parse_decimal (some closePriceInput) with
    | none => .error "Precio de cierre inválido."
    | some close_price =>
      .ok [.appendHist (manualCloseRow r close_price justifClose now lot_size_r margin_pct_r),
           .deleteOps rownum]

/-! ## Registration (`app.py` lines 239-297) -/

/-- The `datos` record built by the register form (`app.py` lines 252-268),
holding the values destined for its sheet row. -/
structure Datos where
  uid : Nat
  fecha : String
  simbolo : String
  tipo : String
  lote : ℚ
  precio : ℚ
  stopLoss : Cell
  takeProfit : Cell
  margen : ℚ
  riesgo : Cell
  beneficio : Cell
  rb : Cell
  ordenTipo : String
  comentario : String
deriving DecidableEq, Repr

/-- Ratio cell of the register row: `f"{rb:.2f}:1" if rb is not None else ""`
(tested on `is not None`, not truthiness). -/
def cellRatioOrEmptyIfSome : Option ℚ → Cell
  | some q => .fmtRatio q
  | none => .str ""

/-- Register ("Registrar Suceso", `app.py` lines 239-297): validates that at
least `lote` and `precio` parsed, otherwise reports "Necesitas al menos Lote y
Precio para registrar." and mutates nothing; on success builds `datos` from the
current live calculation and appends it to the active table. -/
def register_form (lote precio sl tp : Option ℚ) (calcOut : CalcOut)
    (symbol : String) (side : Side) (ordenTipo comentario : String)
    (uid : Nat) (now : String) : Except String Datos :=
  match lote, precio with
  | some l, some p =>
    .ok { uid := uid, fecha := now, simbolo := symbol, tipo := sideStr side,
          lote := l, precio := p,
          stopLoss := cellOfOpt sl, takeProfit := cellOfOpt tp,
          margen := round2 (calcOut.margen.getD 0),
          riesgo := cellRound2OrEmpty calcOut.riesgo,
          beneficio := cellRound2OrEmpty calcOut.beneficio,
          rb := cellRatioOrEmptyIfSome calcOut.rb,
          ordenTipo := ordenTipo, comentario := comentario }
  | _, _ => .error "Necesitas al menos Lote y Precio para registrar."

/-- Apply a register outcome to the active table: append on success. -/
def runRegister (ops : List Datos) (res : Except String Datos) : List Datos :=
  match res with
  | .error _ => ops
  | .ok d => ops ++ [d]

/-! ## Fixtures and bridge definitions used by the theorems -/

/-- Bridge from the `Side` enum to the boolean side tests of the close flows. -/
def sideIsCompra : Side → Bool
  | .compra => true
  | .venta => false

/-- Example pending record used by concrete witnesses. -/
def opRowPendiente : OpRow :=
  { uid := "100", fecha := "2025-01-01 10:00:00", simbolo := "EURUSD", tipo := "Compra",
    lote := "0,1", precio := "1,1", stopLoss := "1,05", takeProfit := "1,2",
    margen := "55", riesgo := "-5", beneficio := "10", rb := "2.00:1",
    estado := "Pendiente", comentario := "" }

/-- Example market record used by concrete witnesses. -/
def opRowMercado : OpRow := { opRowPendiente with estado := "Mercado" }

/-! ## Helper lemmas -/

/-- Mapping a character function through `dropWhile` commutes when the
function preserves the predicate. -/
theorem dropWhile_map_of_pres (f : Char → Char) (p : Char → Bool)
    (h : ∀ c, p (f c) = p c) :
    ∀ cs : List Char, (cs.map f).dropWhile p = (cs.dropWhile p).map f := by
  intro cs
  induction cs with
  | nil => simp
  | cons c cs ih =>
    rw [List.map_cons, List.dropWhile_cons, List.dropWhile_cons, h c]
    by_cases hp : p c = true
    · simp [hp, ih]
    · simp [hp]

/-- Comma-to-dot substitution preserves whitespace-ness of each character. -/
theorem commaToDotChar_ws (c : Char) :
    (if c = ',' then '.' else c).isWhitespace = c.isWhitespace := by
  by_cases hc : c = ','
  · subst hc; decide
  · simp [hc]

/-- Stripping commutes with the comma-to-dot substitution. -/
theorem trimList_commaToDot (cs : List Char) :
    trimList (commaToDot cs) = commaToDot (trimList cs) := by
  unfold trimList commaToDot
  rw [dropWhile_map_of_pres _ _ commaToDotChar_ws, ← List.map_reverse,
      dropWhile_map_of_pres _ _ commaToDotChar_ws, ← List.map_reverse]

/-- Comma-to-dot substitution is idempotent. -/
theorem commaToDot_idem (cs : List Char) :
    commaToDot (commaToDot cs) = commaToDot cs := by
  unfold commaToDot
  rw [List.map_map]
  congr 1
  funext c
  by_cases hc : c = ','
  · subst hc; rfl
  · simp [hc]

/-- Comma-to-dot substitution maps only the empty text to the empty text. -/
theorem commaToDot_eq_nil (cs : List Char) : commaToDot cs = [] ↔ cs = [] := by
  unfold commaToDot
  simp

/-- Stripping whitespace-only text yields the empty text. -/
theorem trimList_all_ws (cs : List Char) (h : ∀ c ∈ cs, c.isWhitespace = true) :
    trimList cs = [] := by
  unfold trimList
  have h1 : cs.dropWhile Char.isWhitespace = [] := by
    rw [List.dropWhile_eq_nil_iff]
    exact fun x hx => h x hx
  rw [h1]
  rfl

/-- Positivity of a product matches positivity of the corresponding quotient. -/
theorem qmul_pos_iff_qdiv_pos (a b : ℚ) : 0 < a * b ↔ 0 < a / b := by
  rw [mul_pos_iff, div_pos_iff]

/-- Negativity of a product matches positivity of the sign-flipped quotient. -/
theorem qmul_neg_iff_qdiv_pos (a b : ℚ) : a * b < 0 ↔ 0 < -a / b := by
  rw [mul_neg_iff, div_pos_iff]
  constructor
  · rintro (⟨h1, h2⟩ | ⟨h1, h2⟩)
    · exact Or.inr ⟨by linarith, h2⟩
    · exact Or.inl ⟨by linarith, h2⟩
  · rintro (⟨h1, h2⟩ | ⟨h1, h2⟩)
    · exact Or.inr ⟨by linarith, h2⟩
    · exact Or.inl ⟨by linarith, h2⟩

/-- Closed form of the live ratio on present inputs. -/
theorem liveRb_eq (r b : ℚ) :
    liveRb (some r) (some b) = if r = 0 then none else some (abs b / abs r) := by
  simp only [liveRb]
  by_cases hr : r = 0
  · simp [hr]
  · simp [hr, abs_ne_zero]

/-- The live ratio is never negative. -/
theorem liveRb_nonneg (x y : Option ℚ) (q : ℚ) (h : liveRb x y = some q) : 0 ≤ q := by
  cases x with
  | none => simp [liveRb] at h
  | some r =>
    cases y with
    | none => simp [liveRb] at h
    | some b =>
      simp only [liveRb] at h
      by_cases hr : abs r ≠ 0
      · rw [if_pos hr] at h
        injection h with h
        rw [← h]
        positivity
      · rw [if_neg hr] at h
        exact absurd h (by simp)

/-! ## Claim theorems -/

/-- C1 counterexample: at `lotSize = 2`, `lot = 1`, `entryPrice = 2`,
`stopLevel = 1`, `targetLevel = 3` on the Long side, the computed risk is
`1 * (1 - 2) * 2 = -2` while the spec formula gives `1 * (2 - 1) / 2 = 1/2`,
and the computed reward is `1 * (3 - 2) * 2 = 2` while the spec formula gives
`1 * (3 - 2) / 2 = 1/2`: the code multiplies by `lotSize` instead of dividing
and computes risk with the opposite sign. -/
theorem c1_spec_formula_counterexample :
    (computeLive .compra 2 0 (some 1) (some 2) (some 1) (some 3)).riesgo
      ≠ some (specRisk .compra 1 2 1 2)
    ∧ (computeLive .compra 2 0 (some 1) (some 2) (some 1) (some 3)).beneficio
      ≠ some (specReward .compra 1 2 3 2) := by
  constructor <;>
  · norm_num [computeLive, liveRiesgo, liveBeneficio, specRisk, specReward]

/-- C1 amended: for every side and all present inputs, the computed risk and
reward are: for Long, `risk = lot * (stopLevel - entryPrice) * lotSize` and
`reward = lot * (targetLevel - entryPrice) * lotSize`; for Short,
`risk = lot * (entryPrice - stopLevel) * lotSize` and
`reward = lot * (entryPrice - targetLevel) * lotSize` — i.e. multiplication by
`lotSize` instead of division, with the risk sign opposite to the spec's
convention; the edit panel uses the same formulas. -/
theorem c1_amended_risk_reward_formulas :
    ∀ (side : Side) (ls mp l p s t : ℚ),
    (computeLive side ls mp (some l) (some p) (some s) (some t)).riesgo
      = some (match side with
              | .compra => l * (s - p) * ls
              | .venta => l * (p - s) * ls)
    ∧ (computeLive side ls mp (some l) (some p) (some s) (some t)).beneficio
      = some (match side with
              | .compra => l * (t - p) * ls
              | .venta => l * (p - t) * ls)
    ∧ editRiesgo (sideIsCompra side) p l ls (some s)
      = some (match side with
              | .compra => (s - p) * l * ls
              | .venta => (p - s) * l * ls)
    ∧ editBeneficio (sideIsCompra side) p l ls (some t)
      = some (match side with
              | .compra => (t - p) * l * ls
              | .venta => (p - t) * l * ls) := by
  intro side ls mp l p s t
  cases side <;>
    simp [computeLive, liveRiesgo, liveBeneficio, editRiesgo, editBeneficio, sideIsCompra]

/-- C2 counterexample: at `lot = 1`, `entryPrice = 2`, `stopLevel = 1`,
`lotSize = 2` on the Long side, the close-time recomputation gives
`1 * (1 - 2) / 2 = -1/2` while the registration-time computation gives
`1 * (1 - 2) * 2 = -2`: the two are not the same function of
`(lot, entryPrice, stopLevel, targetLevel, lotSize)`. -/
theorem c2_close_recompute_counterexample :
    riesgo_r true (some 1) (some 2) (some 1) 2
      ≠ (computeLive .compra 2 0 (some 1) (some 2) (some 1) none).riesgo := by
  norm_num [riesgo_r, computeLive, liveRiesgo]

/-- C2 amended: the close-time recomputation uses the record's original entry
price, lot, stop and target with the same sign convention as the
registration-time computation, but divides by `lotSize` where registration
multiplies: for nonzero lot, entry price and lot size it equals the
registration-time value divided by `lotSize ^ 2`; the two agree exactly only
when `lotSize ^ 2 = 1`. -/
theorem c2_amended_close_scaling :
    ∀ (side : Side) (l p s t mp ls : ℚ), ls ≠ 0 → l ≠ 0 → p ≠ 0 →
    riesgo_r (sideIsCompra side) (some l) (some p) (some s) ls
      = ((computeLive side ls mp (some l) (some p) (some s) (some t)).riesgo).map
          (fun x => x / ls ^ 2)
    ∧ beneficio_r (sideIsCompra side) (some l) (some p) (some t) ls
      = ((computeLive side ls mp (some l) (some p) (some s) (some t)).beneficio).map
          (fun x => x / ls ^ 2) := by
  intro side l p s t mp ls hls hl hp
  cases side <;>
  · simp [riesgo_r, beneficio_r, computeLive, liveRiesgo, liveBeneficio, sideIsCompra, hl, hp]
    constructor <;> · field_simp; ring

/-- C2 witness: the amended scaling relation at the counterexample's inputs. -/
theorem c2_amended_close_scaling_witness :
    riesgo_r (sideIsCompra .compra) (some 1) (some 2) (some 1) 2
      = ((computeLive .compra 2 0 (some 1) (some 2) (some 1) (some 3)).riesgo).map
          (fun x => x / (2 : ℚ) ^ 2) :=
  (c2_amended_close_scaling .compra 1 2 1 3 0 2 (by norm_num) (by norm_num) (by norm_num)).1

/-- C3 counterexample: at `lot = 1`, `entryPrice = 2`, `stopLevel = 1`,
`targetLevel = 3`, `lotSize = 1` on the Long side the computed risk is `-1`
(not positive), yet the ratio is the number `1 = abs(1) / abs(-1)` — exactly
`reward / abs(risk)` — instead of the "incoherent" sentinel. -/
theorem c3_ratio_counterexample :
    (computeLive .compra 1 0 (some 1) (some 2) (some 1) (some 3)).riesgo = some (-1)
    ∧ (computeLive .compra 1 0 (some 1) (some 2) (some 1) (some 3)).rb = some 1 := by
  constructor <;>
  · norm_num [computeLive, liveRiesgo, liveBeneficio, liveRb]

/-- C3 amended: the ratio is computed as `abs(reward) / abs(risk)` whenever
both risk and reward are present and risk is nonzero — also when
`risk <= 0`, so no sentinel is reported for negative risk (incoherence is
signalled only by the separate flag); the ratio is unavailable when
`risk = 0`, and any ratio value returned is nonnegative (never negative). -/
theorem c3_amended_ratio_abs :
    ∀ (side : Side) (ls mp l p s t r b : ℚ),
    (computeLive side ls mp (some l) (some p) (some s) (some t)).riesgo = some r →
    (computeLive side ls mp (some l) (some p) (some s) (some t)).beneficio = some b →
    ((computeLive side ls mp (some l) (some p) (some s) (some t)).rb
        = if r = 0 then none else some (abs b / abs r))
    ∧ (∀ q, (computeLive side ls mp (some l) (some p) (some s) (some t)).rb = some q →
        0 ≤ q) := by
  intro side ls mp l p s t r b h1 h2
  have hrb : (computeLive side ls mp (some l) (some p) (some s) (some t)).rb
      = liveRb (some r) (some b) := by
    simp only [computeLive] at h1 h2 ⊢
    rw [h1, h2]
  rw [hrb]
  exact ⟨liveRb_eq r b, fun q hq => liveRb_nonneg _ _ q hq⟩

/-- C3 witness: the amended ratio rule at the counterexample's inputs. -/
theorem c3_amended_ratio_abs_witness :
    (computeLive .compra 1 0 (some 1) (some 2) (some 1) (some 3)).rb
      = if (-1 : ℚ) = 0 then none else some (abs 1 / abs (-1 : ℚ)) :=
  (c3_amended_ratio_abs .compra 1 0 1 2 1 3 (-1) 1
    (by norm_num [computeLive, liveRiesgo])
    (by norm_num [computeLive, liveBeneficio])).1

/-- C4: for every side and every input where both risk and reward are
computable, the coherence flag (negation of `incoherente`) is true iff both
risk and reward are strictly positive under the spec's sign convention for
that side. -/
theorem c4_coherence_iff_positive :
    ∀ (side : Side) (ls mp l p s t : ℚ),
    ((computeLive side ls mp (some l) (some p) (some s) (some t)).incoherente = false
      ↔ 0 < specRisk side l p s ls ∧ 0 < specReward side l p t ls) := by
  intro side ls mp l p s t
  cases side
  · simp only [computeLive, liveIncoherente, liveRiesgo, liveBeneficio, specRisk, specReward]
    have e : -(l * (s - p)) = l * (p - s) := by ring
    have hr := qmul_neg_iff_qdiv_pos (l * (s - p)) ls
    rw [e] at hr
    have hb := qmul_pos_iff_qdiv_pos (l * (t - p)) ls
    constructor
    · intro h
      by_cases hc : l * (s - p) * ls < 0 ∧ 0 < l * (t - p) * ls
      · exact ⟨hr.mp hc.1, hb.mp hc.2⟩
      · simp [if_neg hc] at h
    · intro h
      have hc : l * (s - p) * ls < 0 ∧ 0 < l * (t - p) * ls :=
        ⟨hr.mpr h.1, hb.mpr h.2⟩
      simp [if_pos hc]
  · simp only [computeLive, liveIncoherente, liveRiesgo, liveBeneficio, specRisk, specReward]
    have e : -(l * (p - s)) = l * (s - p) := by ring
    have hr := qmul_neg_iff_qdiv_pos (l * (p - s)) ls
    rw [e] at hr
    have hb := qmul_pos_iff_qdiv_pos (l * (p - t)) ls
    constructor
    · intro h
      by_cases hc : l * (p - s) * ls < 0 ∧ 0 < l * (p - t) * ls
      · exact ⟨hr.mp hc.1, hb.mp hc.2⟩
      · simp [if_neg hc] at h
    · intro h
      have hc : l * (p - s) * ls < 0 ∧ 0 < l * (p - t) * ls :=
        ⟨hr.mpr h.1, hb.mpr h.2⟩
      simp [if_pos hc]

/-- C5: when only `lot` and `entryPrice` parse (stop and target absent), the
calculation returns margin `marginPct * lot * entryPrice * lotSize` and leaves
risk, reward and ratio unavailable (`none`, not zero); the computation is a
total function, so no exception is possible. -/
theorem c5_partial_input_margin_only :
    ∀ (side : Side) (ls mp l p : ℚ),
    computeLive side ls mp (some l) (some p) none none
      = { margen := some (mp * l * p * ls), riesgo := none, beneficio := none,
          rb := none, incoherente := false } := by
  intro side ls mp l p
  cases side <;> rfl

/-- C6: cancel succeeds only on a record in state Pendiente and only with a
justification that does not strip to empty; a record in any other state is
rejected with an error and the tables are unchanged; an empty justification on
a pending record is rejected with an error and the tables are unchanged; on
success the record's data is appended to the historical table with cause
`"Eliminada"` (the Cancelled cause) carrying the justification, and the
record's sheet row is removed from the active table. -/
theorem c6_cancel_lifecycle :
    ∀ (t : Tables) (r : OpRow) (rownum : Nat) (j now : String),
    (pyLower (pyStrip r.estado) ≠ "pendiente" →
      cancelOp r rownum j now
        = .error "Solo se pueden eliminar operaciones en estado Pendiente."
      ∧ runOp t (cancelOp r rownum j now) = t)
    ∧ (pyLower (pyStrip r.estado) = "pendiente" → pyStrip j = "" →
      cancelOp r rownum j now = .error "La justificación es obligatoria."
      ∧ runOp t (cancelOp r rownum j now) = t)
    ∧ (pyLower (pyStrip r.estado) = "pendiente" → pyStrip j ≠ "" →
      cancelOp r rownum j now
        = .ok [.appendHist (cancelHistRow r now j), .deleteOps rownum]
      ∧ runOp t (cancelOp r rownum j now)
        = { ops := t.ops.eraseIdx (rownum - 2), hist := t.hist ++ [cancelHistRow r now j] }
      ∧ (cancelHistRow r now j)[14]? = some (.str "Eliminada")
      ∧ (cancelHistRow r now j)[15]? = some (.str j)) := by
  intro t r rownum j now
  refine ⟨?_, ?_, ?_⟩
  · intro h
    rw [cancelOp, if_pos h]
    exact ⟨rfl, rfl⟩
  · intro h1 h2
    rw [cancelOp, if_neg (by simp [h1]), if_pos h2]
    exact ⟨rfl, rfl⟩
  · intro h1 h2
    rw [cancelOp, if_neg (by simp [h1]), if_neg h2]
    refine ⟨rfl, ?_, rfl, rfl⟩
    simp [runOp, applyEffects, applyEffect]

/-- C6 witness: a Mercado record is rejected, a pending record with blank
justification is rejected, and a pending record with a justification moves
from the active table to history. -/
theorem c6_cancel_lifecycle_witness :
    (cancelOp opRowMercado 2 "motivo" "now"
      = .error "Solo se pueden eliminar operaciones en estado Pendiente.")
    ∧ (cancelOp opRowPendiente 2 " " "now" = .error "La justificación es obligatoria.")
    ∧ (runOp ⟨[opRowPendiente], []⟩ (cancelOp opRowPendiente 2 "motivo" "now")
      = ⟨[], [cancelHistRow opRowPendiente "now" "motivo"]⟩) := by
  refine ⟨?_, ?_, ?_⟩
  · exact ((c6_cancel_lifecycle ⟨[opRowPendiente], []⟩ opRowMercado 2 "motivo" "now").1
      (by decide)).1
  · exact ((c6_cancel_lifecycle ⟨[opRowPendiente], []⟩ opRowPendiente 2 " " "now").2.1
      (by decide) (by decide)).1
  · have h := ((c6_cancel_lifecycle ⟨[opRowPendiente], []⟩ opRowPendiente 2 "motivo" "now").2.2
      (by decide) (by decide)).2.1
    simpa using h

/-- C7: register appends a new row to the active table only when both `lote`
and `precio` parsed; if either is absent — even with stop and target present —
it reports the error "Necesitas al menos Lote y Precio para registrar." and
appends nothing. -/
theorem c7_register_validation :
    ∀ (lote precio sl tp : Option ℚ) (calcOut : CalcOut) (symbol : String) (side : Side)
      (ordenTipo comentario : String) (uid : Nat) (now : String) (ops : List Datos),
    ((lote = none ∨ precio = none) →
      register_form lote precio sl tp calcOut symbol side ordenTipo comentario uid now
        = .error "Necesitas al menos Lote y Precio para registrar."
      ∧ runRegister ops
          (register_form lote precio sl tp calcOut symbol side ordenTipo comentario uid now)
        = ops)
    ∧ (∀ l p, lote = some l → precio = some p →
      ∃ d : Datos,
        register_form lote precio sl tp calcOut symbol side ordenTipo comentario uid now = .ok d
        ∧ runRegister ops
            (register_form lote precio sl tp calcOut symbol side ordenTipo comentario uid now)
          = ops ++ [d]
        ∧ d.lote = l ∧ d.precio = p) := by
  intro lote precio sl tp calcOut symbol side ordenTipo comentario uid now ops
  constructor
  · intro h
    match lote, h with
    | none, _ => exact ⟨rfl, rfl⟩
    | some l, h =>
      match precio, h with
      | none, _ => exact ⟨rfl, rfl⟩
      | some p, h => simp at h
  · intro l p hl hp
    subst hl
    subst hp
    exact ⟨_, rfl, rfl, rfl, rfl⟩

/-- C7 witness: absent price with stop and target present is rejected and the
active table is unchanged. -/
theorem c7_register_validation_witness :
    register_form (some 1) none (some 2) (some 3)
        (computeLive .compra 1 0 (some 1) none (some 2) (some 3)) "EURUSD" .compra
        "Pendiente" "" 100 "now"
      = .error "Necesitas al menos Lote y Precio para registrar."
    ∧ runRegister []
        (register_form (some 1) none (some 2) (some 3)
          (computeLive .compra 1 0 (some 1) none (some 2) (some 3)) "EURUSD" .compra
          "Pendiente" "" 100 "now")
      = [] :=
  (c7_register_validation (some 1) none (some 2) (some 3)
    (computeLive .compra 1 0 (some 1) none (some 2) (some 3)) "EURUSD" .compra
    "Pendiente" "" 100 "now" []).1 (Or.inr rfl)

/-- C10: every successful terminal transition (cancel, automatic close, manual
close) produces exactly the mutation sequence append-to-history followed by
delete-from-active, in that order; consequently every history-then-delete trace
that contains the delete in one of its initial segments already contains the
append there, so no execution that fails midway can have removed the record
from the active table without it being in history. -/
theorem c10_append_before_delete :
    ∀ (r : OpRow) (rownum : Nat) (j now cp : String) (motivo : Motivo) (ls mp : ℚ)
      (es : List Effect),
    (cancelOp r rownum j now = .ok es →
       es = [.appendHist (cancelHistRow r now j), .deleteOps rownum])
    ∧ (autoCloseOp r rownum motivo now ls mp = .ok es →
       es = [.appendHist (autoCloseRow r motivo now ls mp), .deleteOps rownum])
    ∧ (manualCloseOp r rownum cp j now ls mp = .ok es →
       ∃ close_price,
         es = [.appendHist (manualCloseRow r close_price j now ls mp), .deleteOps rownum])
    ∧ (∀ (row : List Cell) (n k : Nat),
        Effect.deleteOps n ∈ ([Effect.appendHist row, Effect.deleteOps n].take k) →
        Effect.appendHist row ∈ ([Effect.appendHist row, Effect.deleteOps n].take k)) := by
  intro r rownum j now cp motivo ls mp es
  refine ⟨?_, ?_, ?_, ?_⟩
  · intro h
    rw [cancelOp] at h
    by_cases h1 : pyLower (pyStrip r.estado) ≠ "pendiente"
    · rw [if_pos h1] at h
      exact absurd h (by simp)
    · rw [if_neg h1] at h
      by_cases h2 : pyStrip j = ""
      · rw [if_pos h2] at h
        exact absurd h (by simp)
      · rw [if_neg h2] at h
        injection h with h
        exact h.symm
  · intro h
    rw [autoCloseOp] at h
    by_cases h1 : pyLower (pyStrip r.estado) = "pendiente"
    · rw [if_pos h1] at h
      exact absurd h (by simp)
    · rw [if_neg h1] at h
      injection h with h
      exact h.symm
  · intro h
    rw [manualCloseOp] at h
    by_cases h1 : pyLower (pyStrip r.estado) = "pendiente"
    · rw [if_pos h1] at h
      exact absurd h (by simp)
    · rw [if_neg h1] at h
      match hm : parse_decimal (some cp), h with
      | none, h => exact absurd h (by simp)
      | some v, h =>
        refine ⟨v, ?_⟩
        injection h with h
        exact h.symm
  · intro row n k hk
    match k with
    | 0 => simp at hk
    | 1 => simp at hk
    | (k + 2) => simp [List.take]

/-- C10 witness: on a concrete successful cancel the trace is exactly
append-then-delete and the append is already in the length-2 initial segment. -/
theorem c10_append_before_delete_witness :
    ([Effect.appendHist (cancelHistRow opRowPendiente "now" "motivo"), Effect.deleteOps 2]
      = [Effect.appendHist (cancelHistRow opRowPendiente "now" "motivo"), Effect.deleteOps 2])
    ∧ Effect.appendHist (cancelHistRow opRowPendiente "now" "motivo")
        ∈ ([Effect.appendHist (cancelHistRow opRowPendiente "now" "motivo"),
            Effect.deleteOps 2].take 2) := by
  constructor
  · exact (c10_append_before_delete opRowPendiente 2 "motivo" "now" "1,5" .tp 1 0
      [.appendHist (cancelHistRow opRowPendiente "now" "motivo"), .deleteOps 2]).1 rfl
  · exact (c10_append_before_delete opRowPendiente 2 "motivo" "now" "1,5" .tp 1 0
      []).2.2.2 (cancelHistRow opRowPendiente "now" "motivo") 2 2 (by simp [List.take])

/-- C8: the numeric normalizer treats comma and dot decimal separators
identically (comma is substituted by dot before parsing), so
`parse_decimal "0,02" = parse_decimal "0.02" = 0.02`; empty or whitespace-only
text yields the absent result (not an error), and text that still fails to
parse after substitution (e.g. "abc") yields the absent result. -/
theorem c8_normalizer_comma_dot :
    (∀ cs : List Char, parse_decimal_chars cs = parse_decimal_chars (commaToDot cs))
    ∧ parse_decimal (some "0,02") = some (1 / 50)
    ∧ parse_decimal (some "0.02") = some (1 / 50)
    ∧ parse_decimal (some "") = none
    ∧ (∀ s : String, (∀ c ∈ s.data, c.isWhitespace = true) → parse_decimal (some s) = none)
    ∧ parse_decimal (some "abc") = none := by
  refine ⟨?_, ?_, ?_, ?_, ?_, ?_⟩
  · intro cs
    unfold parse_decimal_chars
    rw [trimList_commaToDot]
    by_cases h : trimList cs = []
    · simp [h, commaToDot]
    · have h2 : commaToDot (trimList cs) ≠ [] := by
        rw [Ne, commaToDot_eq_nil]; exact h
      simp only [h, h2, if_neg]
      rw [commaToDot_idem]
  · simp [parse_decimal, parse_decimal_chars, trimList, commaToDot, pyFloatRat?, mantissa?,
          splitOnChar, digitsVal?, digitsValAux, digit?, expVal?]
    norm_num
  · simp [parse_decimal, parse_decimal_chars, trimList, commaToDot, pyFloatRat?, mantissa?,
          splitOnChar, digitsVal?, digitsValAux, digit?, expVal?]
    norm_num
  · decide
  · intro s h
    show parse_decimal_chars s.data = none
    unfold parse_decimal_chars
    simp [trimList_all_ws s.data h]
  · decide

/-- C8 witness: the whitespace-only input " " yields the absent result. -/
theorem c8_normalizer_comma_dot_witness : parse_decimal (some " ") = none :=
  c8_normalizer_comma_dot.2.2.2.2.1 " " (by decide)

/-- C9 counterexample: the margin-percentage cell text "nan" parses to the
float NaN, both source guards `val > 1` and `val <= 1` are False, and the
function falls off its end returning `None` — an absent result, not a
number.  This refutes "the function always returns a number (never an error
and never an absent result)". -/
theorem c9_nan_counterexample : parse_margin_pct (some "nan") = none := by decide

/-- C9 amended: `parse_margin_pct` strips `%`, converts comma to dot, parses
the result as a float and divides it by 100; unparseable or empty values yield
0.0 and no error is ever raised; it returns a number for every input except
text whose cleaned form parses to NaN (e.g. "nan"), on which the source's
fall-through returns the absent `None`. -/
theorem c9_amended_margin_pct :
    (parse_margin_pct none = some (.fin 0))
    ∧ (∀ s : String, trimList s.data = [] → parse_margin_pct (some s) = some (.fin 0))
    ∧ (∀ s : String, ∀ q : ℚ, pyFloat? (marginClean s) = some (.fin q) →
        parse_margin_pct (some s) = some (.fin (q / 100)))
    ∧ (∀ s : String, pyFloat? (marginClean s) = none →
        parse_margin_pct (some s) = some (.fin 0))
    ∧ (∀ s : String, parse_margin_pct (some s) = none ↔
        (trimList s.data ≠ [] ∧ pyFloat? (marginClean s) = some .nan))
    ∧ parse_margin_pct (some "0,50%") = some (.fin (1 / 200))
    ∧ parse_margin_pct (some "0.50%") = some (.fin (1 / 200))
    ∧ parse_margin_pct (some "0.5") = some (.fin (1 / 200))
    ∧ parse_margin_pct (some "abc") = some (.fin 0) := by
  have hempty : ∀ s : String, trimList s.data = [] → pyFloat? (marginClean s) = none := by
    intro s h
    unfold marginClean
    rw [h]
    decide
  refine ⟨rfl, ?_, ?_, ?_, ?_, ?_, ?_, ?_, ?_⟩
  · intro s h
    unfold parse_margin_pct
    simp [h]
  · intro s q hq
    by_cases h : trimList s.data = []
    · rw [hempty s h] at hq
      exact absurd hq (by simp)
    · unfold parse_margin_pct
      simp [h, hq]
  · intro s hn
    by_cases h : trimList s.data = []
    · unfold parse_margin_pct
      simp [h]
    · unfold parse_margin_pct
      simp [h, hn]
  · intro s
    constructor
    · intro hnone
      by_cases h : trimList s.data = []
      · unfold parse_margin_pct at hnone
        simp [h] at hnone
      · refine ⟨h, ?_⟩
        unfold parse_margin_pct at hnone
        simp only [h, if_neg, if_false] at hnone
        revert hnone
        match hv : pyFloat? (marginClean s) with
        | some (.fin val) => simp [hv]
        | some (.inf b) => simp [hv]
        | some .nan => simp
        | none => simp [hv]
    · rintro ⟨h, hn⟩
      unfold parse_margin_pct
      simp [h, hn]
  · simp [parse_margin_pct, marginClean, trimList, commaToDot, removePct, pyFloat?, pyFloatRat?,
          mantissa?, splitOnChar, digitsVal?, digitsValAux, digit?, expVal?, pyFloatSpecial?]
    norm_num
  · simp [parse_margin_pct, marginClean, trimList, commaToDot, removePct, pyFloat?, pyFloatRat?,
          mantissa?, splitOnChar, digitsVal?, digitsValAux, digit?, expVal?, pyFloatSpecial?]
    norm_num
  · simp [parse_margin_pct, marginClean, trimList, commaToDot, removePct, pyFloat?, pyFloatRat?,
          mantissa?, splitOnChar, digitsVal?, digitsValAux, digit?, expVal?, pyFloatSpecial?]
    norm_num
  · decide

/-- C9 witness: "2%" cleans to "2", parses to 2, and the result is 2/100. -/
theorem c9_amended_margin_pct_witness :
    parse_margin_pct (some "2%") = some (.fin (2 / 100)) :=
  c9_amended_margin_pct.2.2.1 "2%" 2 (by
    simp [marginClean, trimList, commaToDot, removePct, pyFloat?, pyFloatRat?, mantissa?,
          splitOnChar, digitsVal?, digitsValAux, digit?, expVal?])
